import Mathlib

/-!
Verification of the NSP Bolt Ride real-time trip processing core.

This file gives a shallow embedding, in Lean, of the reconciliation core of
the repository: the schema / business-rule validator, the error classifier,
the DynamoDB merge operations for trip start and trip end events, the
completion detector, the quarantine archiver, the dead-letter router, and the
two Kinesis batch handlers (the enhanced one in
`src/glue/daily_kpi_aggregation.py` and the basic one in
`src/lambda/stream_processor/handler.py`).

Impure ingredients of the Python code are made explicit parameters:
`datetime.now()` becomes a `now : Int` (naive wall-clock seconds) or
`nowIso : String` argument, the DynamoDB table becomes an explicit
`String → TripItem` state threaded through each handler, and the success or
failure of S3 / SQS / DynamoDB calls becomes explicit outcome inputs.
-/

/-! ## String utilities (Python `in`, `.lower()`) -/

/-- `leadEq nee hay` is true when the character list `nee` is an initial
segment of `hay`. -/
def leadEq : List Char → List Char → Bool
  | [], _ => true
  | _ :: _, [] => false
  | a :: as, b :: bs => (a == b) && leadEq as bs

/-- `hasSubList hay nee`: does `hay` contain `nee` as a contiguous sublist?
This models the Python substring operator `nee in hay`. -/
def hasSubList : List Char → List Char → Bool
  | hay, nee =>
    match hay with
    | [] => nee.isEmpty
    | _ :: rest => leadEq nee hay || hasSubList rest nee

/-- Python substring containment `nee in hay` on strings. -/
def strHasSub (hay nee : String) : Bool :=
  hasSubList hay.toList nee.toList

/-- Python `str.lower()` (ASCII case folding suffices for the messages the
source inspects). -/
def strLower (s : String) : String :=
  String.mk (s.toList.map Char.toLower)

/-- Replace every occurrence of the character `c` by `new` (left to right). -/
def replaceCharList (c : Char) (new : List Char) : List Char → List Char
  | [] => []
  | x :: rest =>
    if x == c then new ++ replaceCharList c new rest
    else x :: replaceCharList c new rest

/-- Python `value.replace('Z', '+00:00')`, the only `str.replace` call the
source makes (the pattern is a single character, so non-overlapping
replacement is character replacement). -/
def pyReplaceZ (s : String) : String :=
  String.mk (replaceCharList 'Z' "+00:00".toList s.toList)

/-- Division of rationals through `mkRat` (Python `/` on floats; the callers
guard the divisor against zero, matching the source's `distance > 0` guard).
Spelled out because this development only uses kernel-reducible `Rat`
operations. -/
def ratDiv (a b : Rat) : Rat :=
  if b.num < 0 then mkRat (-(a.num * (b.den : Int))) (a.den * b.num.natAbs)
  else mkRat (a.num * (b.den : Int)) (a.den * b.num.natAbs)

/-! ## Python values

JSON-decoded Python values, as produced by `json.loads`: `None`, booleans,
ints, floats, strings, lists and dicts. Dicts are association lists with
unique keys (as `json.loads` produces). Floats are modelled as rationals. -/

inductive PyVal where
  | pnone
  | pbool (b : Bool)
  | pint (n : Int)
  | pfloat (q : Rat)
  | pstr (s : String)
  | plist (xs : List PyVal)
  | pdict (fields : List (String × PyVal))

/-- Python dict lookup `d.get(key)` / `key in d`. -/
def dictGet : List (String × PyVal) → String → Option PyVal
  | [], _ => none
  | (k, v) :: rest, key => if k == key then some v else dictGet rest key

/-- Python truthiness (`if value:`). -/
def pyTruthy : PyVal → Bool
  | .pnone => false
  | .pbool b => b
  | .pint n => n != 0
  | .pfloat q => !(q == 0)
  | .pstr s => s != ""
  | .plist xs => !xs.isEmpty
  | .pdict fs => !fs.isEmpty

/-- Python `value == "literal"` for a string literal: true only when the value
is that very string (cross-type `==` is `False` in Python). -/
def pyEqStr (v : PyVal) (s : String) : Bool :=
  match v with
  | .pstr t => t == s
  | _ => false

/-! ## Python exceptions

Only the exception classes the source mentions are modelled. The one
inheritance fact that matters is that `json.JSONDecodeError` is a subclass of
`ValueError` (standard Python class hierarchy). `clientError` stands for
botocore's `ClientError`, the class of storage-layer (DynamoDB / S3 / SQS)
failures. -/

inductive ExcClass where
  | validationError
  | valueError
  | typeError
  | jsonDecodeError
  | keyError
  | attributeError
  | zeroDivisionError
  | clientError
  | otherException
deriving DecidableEq, Repr

/-- The ancestors of each class among the modelled classes (the class itself
included). `json.JSONDecodeError` derives from `ValueError`; every other
modelled class derives directly from `Exception` and is unrelated to the
rest. -/
def classAncestors : ExcClass → List ExcClass
  | .jsonDecodeError => [.jsonDecodeError, .valueError]
  | c => [c]

/-- Python `isinstance(e, target)` restricted to the modelled classes. -/
def pyIsinstanceExc (c target : ExcClass) : Bool :=
  (classAncestors c).contains target

/-- Python `type(error).__name__`. -/
def excClassName : ExcClass → String
  | .validationError => "ValidationError"
  | .valueError => "ValueError"
  | .typeError => "TypeError"
  | .jsonDecodeError => "JSONDecodeError"
  | .keyError => "KeyError"
  | .attributeError => "AttributeError"
  | .zeroDivisionError => "ZeroDivisionError"
  | .clientError => "ClientError"
  | .otherException => "Exception"

/-- A raised Python exception: its class and its `str(error)` message. -/
structure PyExc where
  cls : ExcClass
  msg : String
deriving DecidableEq, Repr

/-! ## Error categories and the classifier (`categorize_error`) -/

def ErrorCategory.VALIDATION_ERROR : String := "VALIDATION_ERROR"

def ErrorCategory.SCHEMA_ERROR : String := "SCHEMA_ERROR"

def ErrorCategory.BUSINESS_RULE_ERROR : String := "BUSINESS_RULE_ERROR"

def ErrorCategory.SYSTEM_ERROR : String := "SYSTEM_ERROR"

def ErrorCategory.TRANSIENT_ERROR : String := "TRANSIENT_ERROR"

def ErrorCategory.POISON_PILL : String := "POISON_PILL"

/-- `categorize_error` from `src/glue/daily_kpi_aggregation.py`, rule for
rule in source order. Note the first rule tests
`isinstance(error, (ValidationError, ValueError, TypeError))` and therefore
also captures `json.JSONDecodeError` (a `ValueError` subclass), so the second
rule is unreachable. -/
def categorize_error (e : PyExc) : String :=
  let error_str := strLower e.msg
  if pyIsinstanceExc e.cls .validationError || pyIsinstanceExc e.cls .valueError
      || pyIsinstanceExc e.cls .typeError then
    ErrorCategory.VALIDATION_ERROR
  else if pyIsinstanceExc e.cls .jsonDecodeError then
    ErrorCategory.SCHEMA_ERROR
  else if strHasSub error_str "throttling"
      || strHasSub error_str "provisionedthroughputexceeded" then
    ErrorCategory.TRANSIENT_ERROR
  else if strHasSub error_str "conditionalcheckfailed" then
    ErrorCategory.BUSINESS_RULE_ERROR
  else if strHasSub error_str "timeout" || strHasSub error_str "connection"
      || strHasSub error_str "network" || strHasSub error_str "endpoint" then
    ErrorCategory.TRANSIENT_ERROR
  else if strHasSub error_str "malformed" || strHasSub error_str "corrupt" then
    ErrorCategory.POISON_PILL
  else
    ErrorCategory.SYSTEM_ERROR

/-! ## Python numeric conversions (`float(...)`, `int(...)`, `Decimal(str(...))`) -/

/-- Value of a list of decimal digit characters (most significant first). -/
def natOfDigitsAux (acc : Nat) : List Char → Nat
  | [] => acc
  | c :: cs => natOfDigitsAux (acc * 10 + (c.toNat - 48)) cs

def natOfDigits (cs : List Char) : Nat := natOfDigitsAux 0 cs

/-- Parse a plain decimal numeral string: optional sign, integer digits,
optional point, fraction digits, at least one digit overall, surrounding
whitespace stripped. This is the fragment of Python `float(str)` /
`Decimal(str)` syntax the repository's data can reach (no exponent or
inf/nan forms appear in it). -/
def parseNumString (s : String) : Option Rat :=
  let cs := ((s.toList.dropWhile Char.isWhitespace).reverse.dropWhile
    Char.isWhitespace).reverse
  let (neg, cs) : Bool × List Char :=
    match cs with
    | '-' :: rest => (true, rest)
    | '+' :: rest => (false, rest)
    | _ => (false, cs)
  let intDigits := cs.takeWhile Char.isDigit
  let afterInt := cs.dropWhile Char.isDigit
  let (fracDigits, rest) : List Char × List Char :=
    match afterInt with
    | '.' :: tl => (tl.takeWhile Char.isDigit, tl.dropWhile Char.isDigit)
    | _ => ([], afterInt)
  if intDigits.isEmpty && fracDigits.isEmpty then none
  else if !rest.isEmpty then none
  else if !afterInt.isEmpty && !(afterInt.headD ' ' == '.') then none
  else
    let scale : Nat := 10 ^ fracDigits.length
    let units : Nat := natOfDigits intDigits * scale + natOfDigits fracDigits
    some (if neg then mkRat (-(units : Int)) scale else mkRat (units : Int) scale)

/-- Python `float(value)`: numbers convert, numeric strings parse, a
non-numeric string raises `ValueError`, and `None` / lists / dicts raise
`TypeError`. Booleans convert as 1.0 / 0.0 (`bool` is an `int` subclass). -/
def pyFloat : PyVal → Except ExcClass Rat
  | .pint n => .ok (mkRat n 1)
  | .pfloat q => .ok q
  | .pbool b => .ok (if b then 1 else 0)
  | .pstr s =>
    match parseNumString s with
    | some q => .ok q
    | none => .error .valueError
  | .pnone => .error .typeError
  | .plist _ => .error .typeError
  | .pdict _ => .error .typeError

/-- Truncation of a rational toward zero, the semantics of Python
`int(float)`. -/
def ratTruncToInt (q : Rat) : Int :=
  if 0 ≤ q.num then ((q.num.toNat / q.den : Nat) : Int)
  else -(((-q.num).toNat / q.den : Nat) : Int)

/-- Python `int(value)` as used on validated numeric payload fields; a
non-integer string or non-numeric value yields `none` (an exception in
Python). -/
def pyInt : PyVal → Option Int
  | .pint n => some n
  | .pfloat q => some (ratTruncToInt q)
  | .pbool b => some (if b then 1 else 0)
  | .pstr s =>
    match (s.toList.dropWhile Char.isWhitespace).reverse.dropWhile
      Char.isWhitespace with
    | [] => none
    | cs =>
      let (neg, ds) : Bool × List Char :=
        match cs.reverse with
        | '-' :: rest => (true, rest)
        | '+' :: rest => (false, rest)
        | other => (false, other)
      if ds.isEmpty || !ds.all Char.isDigit then none
      else some (if neg then -(natOfDigits ds : Int) else (natOfDigits ds : Int))
  | _ => none

/-- Python `Decimal(str(value))` as applied by the merge code to payload
numbers: the numeric value is preserved; non-numeric values raise. -/
def pyDecimalOfStr : PyVal → Option Rat
  | .pint n => some (mkRat n 1)
  | .pfloat q => some q
  | .pstr s => parseNumString s
  | _ => none

/-! ## `datetime.fromisoformat` and calendar arithmetic

The business-rule validator parses timestamps with
`datetime.fromisoformat(value.replace('Z', '+00:00'))` and compares the
result with `datetime.now()`. Naive datetimes are modelled as wall-clock
seconds (`Int`) counted from the proleptic-Gregorian day 0001-01-01, the same
ordinal CPython's `datetime` uses internally. A parsed datetime also records
whether it carried a UTC offset (is timezone-aware): comparing an aware
datetime with the naive `datetime.now()` raises `TypeError` in Python. -/

def isLeapYear (y : Nat) : Bool :=
  (y % 4 == 0 && y % 100 != 0) || y % 400 == 0

def monthLength (y m : Nat) : Nat :=
  match m with
  | 1 => 31 | 2 => if isLeapYear y then 29 else 28 | 3 => 31
  | 4 => 30 | 5 => 31 | 6 => 30 | 7 => 31 | 8 => 31
  | 9 => 30 | 10 => 31 | 11 => 30 | 12 => 31
  | _ => 0

/-- Days in year `y` before the first day of month `m`. -/
def daysBeforeMonth (y m : Nat) : Nat :=
  let base : Nat :=
    match m with
    | 1 => 0 | 2 => 31 | 3 => 59 | 4 => 90 | 5 => 120 | 6 => 151
    | 7 => 181 | 8 => 212 | 9 => 243 | 10 => 273 | 11 => 304 | 12 => 334
    | _ => 0
  if 2 < m && isLeapYear y then base + 1 else base

/-- Days before January 1st of year `y` (proleptic Gregorian, year 1 based),
CPython's `_days_before_year`. -/
def daysBeforeYear (y : Nat) : Nat :=
  365 * (y - 1) + (y - 1) / 4 - (y - 1) / 100 + (y - 1) / 400

/-- Naive wall-clock seconds of a date-time. -/
def civilSeconds (y mo d h mi s : Nat) : Int :=
  ((daysBeforeYear y + daysBeforeMonth y mo + (d - 1)) * 86400
    + h * 3600 + mi * 60 + s : Nat)

def twoDigits : List Char → Option (Nat × List Char)
  | a :: b :: rest =>
    if a.isDigit && b.isDigit then
      some ((a.toNat - 48) * 10 + (b.toNat - 48), rest)
    else none
  | _ => none

def fourDigits : List Char → Option (Nat × List Char)
  | a :: b :: c :: d :: rest =>
    if a.isDigit && b.isDigit && c.isDigit && d.isDigit then
      some (natOfDigits [a, b, c, d], rest)
    else none
  | _ => none

def expectChar (c : Char) : List Char → Option (List Char)
  | x :: rest => if x == c then some rest else none
  | [] => none

/-- Consume a fractional-seconds suffix of exactly 3 or 6 digits (the only
widths `fromisoformat` accepts); the value is dropped (sub-second precision
never decides a comparison in the source's rules at the inputs modelled). -/
def consumeFrac : List Char → Option (List Char)
  | a :: b :: c :: rest =>
    if a.isDigit && b.isDigit && c.isDigit then
      match rest with
      | d :: e :: f :: rest2 =>
        if d.isDigit && e.isDigit && f.isDigit then some rest2 else some rest
      | _ => some rest
    else none
  | _ => none

/-- Consume a trailing UTC offset `±HH:MM`; succeeds only if it ends the
string. -/
def consumeOffsetEnd (cs : List Char) : Option Unit :=
  match cs with
  | c :: rest =>
    if c == '+' || c == '-' then
      match twoDigits rest with
      | some (oh, rest1) =>
        match expectChar ':' rest1 with
        | some rest2 =>
          match twoDigits rest2 with
          | some (om, rest3) =>
            if oh < 24 && om < 60 && rest3.isEmpty then some () else none
          | none => none
        | none => none
      | none => none
    else none
  | [] => none

/-- `datetime.fromisoformat` on the already-`Z`-replaced string, for the
`YYYY-MM-DD[sep HH:MM[:SS[.frac]]][±HH:MM]` forms it accepts: returns the
naive wall-clock seconds and whether the value is timezone-aware, or `none`
for a `ValueError`. -/
def fromisoformat (str : String) : Option (Int × Bool) :=
  match fourDigits str.toList with
  | none => none
  | some (y, cs0) =>
    match expectChar '-' cs0 with
    | none => none
    | some cs1 =>
      match twoDigits cs1 with
      | none => none
      | some (mo, cs2) =>
        match expectChar '-' cs2 with
        | none => none
        | some cs3 =>
          match twoDigits cs3 with
          | none => none
          | some (d, cs4) =>
            if y < 1 || mo < 1 || 12 < mo || d < 1 || monthLength y mo < d then
              none
            else
              match cs4 with
              | [] => some (civilSeconds y mo d 0 0 0, false)
              | _sep :: cs5 =>
                match twoDigits cs5 with
                | none => none
                | some (h, cs6) =>
                  match expectChar ':' cs6 with
                  | none => none
                  | some cs7 =>
                    match twoDigits cs7 with
                    | none => none
                    | some (mi, cs8) =>
                      if 23 < h || 59 < mi then none
                      else
                        match cs8 with
                        | [] => some (civilSeconds y mo d h mi 0, false)
                        | ':' :: cs9 =>
                          match twoDigits cs9 with
                          | none => none
                          | some (sec, cs10) =>
                            if 59 < sec then none
                            else
                              match cs10 with
                              | [] => some (civilSeconds y mo d h mi sec, false)
                              | '.' :: cs11 =>
                                match consumeFrac cs11 with
                                | none => none
                                | some cs12 =>
                                  match cs12 with
                                  | [] =>
                                    some (civilSeconds y mo d h mi sec, false)
                                  | _ =>
                                    match consumeOffsetEnd cs12 with
                                    | some _ =>
                                      some (civilSeconds y mo d h mi sec, true)
                                    | none => none
                              | _ =>
                                match consumeOffsetEnd cs10 with
                                | some _ =>
                                  some (civilSeconds y mo d h mi sec, true)
                                | none => none
                        | _ =>
                          match consumeOffsetEnd cs8 with
                          | some _ => some (civilSeconds y mo d h mi 0, true)
                          | none => none

/-! ## Validation outcome and schemas -/

/-- One entry of the `errors` / `warnings` lists built by the validator: the
Python dict `{'type': ..., 'message': ..., 'field': ...}`. (`etype` stands
for the `type` key.) -/
structure VErr where
  etype : String
  message : String
  field : String
deriving DecidableEq, Repr

/-- The dict returned by `validate_event_data`. -/
structure ValidationResult where
  is_valid : Bool
  errors : List VErr
  warnings : List VErr
deriving DecidableEq, Repr

/-- The `isinstance` type tuples appearing in the schemas' `field_types`. -/
inductive PyTypeSpec where
  | tStr
  | tIntFloat
  | tIntFloatDec
deriving DecidableEq, Repr

/-- `isinstance(value, expected_types)`. A Python `bool` is an instance of
`int`, so booleans satisfy the numeric tuples. -/
def pyIsinstance (v : PyVal) : PyTypeSpec → Bool
  | .tStr => match v with | .pstr _ => true | _ => false
  | .tIntFloat | .tIntFloatDec =>
    match v with
    | .pint _ => true
    | .pfloat _ => true
    | .pbool _ => true
    | _ => false

structure EventSchema where
  required_fields : List String
  field_types : List (String × PyTypeSpec)
  field_ranges : List (String × Rat × Rat)

/-- `TRIP_START_SCHEMA`, fields in source order. -/
def TRIP_START_SCHEMA : EventSchema where
  required_fields :=
    ["trip_id", "pickup_location_id", "dropoff_location_id", "vendor_id",
     "pickup_datetime", "estimated_dropoff_datetime", "estimated_fare_amount"]
  field_types :=
    [("trip_id", .tStr),
     ("pickup_location_id", .tIntFloat),
     ("dropoff_location_id", .tIntFloat),
     ("vendor_id", .tIntFloat),
     ("pickup_datetime", .tStr),
     ("estimated_dropoff_datetime", .tStr),
     ("estimated_fare_amount", .tIntFloatDec)]
  field_ranges :=
    [("pickup_location_id", 1, 500),
     ("dropoff_location_id", 1, 500),
     ("vendor_id", 1, 10),
     ("estimated_fare_amount", mkRat 1 100, 1000)]

/-- `TRIP_END_SCHEMA`, fields in source order. -/
def TRIP_END_SCHEMA : EventSchema where
  required_fields :=
    ["trip_id", "dropoff_datetime", "rate_code", "passenger_count",
     "trip_distance", "fare_amount", "tip_amount", "payment_type", "trip_type"]
  field_types :=
    [("trip_id", .tStr),
     ("dropoff_datetime", .tStr),
     ("rate_code", .tIntFloat),
     ("passenger_count", .tIntFloat),
     ("trip_distance", .tIntFloat),
     ("fare_amount", .tIntFloatDec),
     ("tip_amount", .tIntFloatDec),
     ("payment_type", .tIntFloat),
     ("trip_type", .tIntFloat)]
  field_ranges :=
    [("rate_code", 1, 10),
     ("passenger_count", 0, 8),
     ("trip_distance", 0, 100),
     ("fare_amount", mkRat 1 100, 1000),
     ("tip_amount", 0, 200),
     ("payment_type", 1, 5),
     ("trip_type", 1, 3)]

/-! ## Schema checks (the three loops of `validate_event_data`)

Messages that Python builds by interpolating a runtime value (a type object
or a float) are abbreviated to their fixed text; the messages the claims
inspect (`MISSING_FIELD`) are reproduced exactly. -/

/-- The required-fields loop: one `MISSING_FIELD` error per absent field, in
schema order. -/
def requiredFieldErrors (schema : EventSchema)
    (d : List (String × PyVal)) : List VErr :=
  schema.required_fields.filterMap fun field =>
    if (dictGet d field).isSome then none
    else some ⟨ "MISSING_FIELD", "Missing required field: " ++ field, field ⟩

/-- The data-type loop: one `TYPE_ERROR` per present field whose value fails
its `isinstance` check. -/
def typeErrors (schema : EventSchema) (d : List (String × PyVal)) : List VErr :=
  schema.field_types.filterMap fun ft =>
    match dictGet d ft.1 with
    | none => none
    | some v =>
      if pyIsinstance v ft.2 then none
      else some ⟨ "TYPE_ERROR", "Field " ++ ft.1 ++ " has invalid type", ft.1 ⟩

/-- The range loop, errors: `float(value)` out of the inclusive `[min, max]`
bounds is a `RANGE_ERROR`; a `float()` failure is caught
(`except (ValueError, TypeError)`) and produces a warning instead. -/
def rangeErrors (schema : EventSchema) (d : List (String × PyVal)) : List VErr :=
  schema.field_ranges.filterMap fun fr =>
    match dictGet d fr.1 with
    | none => none
    | some v =>
      match pyFloat v with
      | .error _ => none
      | .ok value =>
        if fr.2.1 ≤ value ∧ value ≤ fr.2.2 then none
        else some ⟨ "RANGE_ERROR",
          "Field " ++ fr.1 ++ " value is outside valid range", fr.1 ⟩

/-- The range loop, warnings: the `RANGE_CHECK_FAILED` entries for fields
whose value `float()` rejects. -/
def rangeWarnings (schema : EventSchema)
    (d : List (String × PyVal)) : List VErr :=
  schema.field_ranges.filterMap fun fr =>
    match dictGet d fr.1 with
    | none => none
    | some v =>
      match pyFloat v with
      | .error _ => some ⟨ "RANGE_CHECK_FAILED",
          "Could not validate range for field " ++ fr.1, fr.1 ⟩
      | .ok _ => none

/-! ## Business rules (`validate_business_rules`)

`datetime.now()` is the explicit parameter `now` (naive wall-clock seconds).
Two exception routes of the Python code are modelled explicitly, both caught
by the function's outer `except Exception` which appends a single
`BUSINESS_RULE_ERROR` and returns:
* `value.replace('Z', '+00:00')` on a non-string raises `AttributeError`;
* comparing a timezone-aware parsed datetime (the string carried a UTC
  offset, e.g. a `Z` suffix) with the naive `datetime.now()` raises
  `TypeError`. -/

def bizRuleErr (what : String) : VErr :=
  ⟨ "BUSINESS_RULE_ERROR", "Business rule validation error: " ++ what,
    "system" ⟩

/-- Start rules: `pickup_datetime` must parse (`INVALID_DATETIME` error on
`ValueError`); a naive pickup more than 1 hour ahead of `now` is a
`FUTURE_PICKUP` warning and one more than 7 days before `now` an
`OLD_PICKUP` warning. -/
def bizStart (d : List (String × PyVal)) (now : Int) : List VErr × List VErr :=
  match dictGet d "pickup_datetime" with
  | none => ([], [])
  | some v =>
    if !pyTruthy v then ([], [])
    else
      match v with
      | .pstr s =>
        match fromisoformat (pyReplaceZ s) with
        | none =>
          ([⟨ "INVALID_DATETIME", "Invalid pickup_datetime format",
              "pickup_datetime" ⟩], [])
        | some (t, aware) =>
          if aware then
            ([bizRuleErr
              "cannot compare offset-naive and offset-aware datetimes"], [])
          else
            let w1 : List VErr :=
              if now + 3600 < t then
                [⟨ "FUTURE_PICKUP",
                   "Pickup time is more than 1 hour in the future",
                   "pickup_datetime" ⟩]
              else []
            let w2 : List VErr :=
              if t < now - 604800 then
                [⟨ "OLD_PICKUP", "Pickup time is more than 7 days old",
                   "pickup_datetime" ⟩]
              else []
            ([], w1 ++ w2)
      | _ => ([bizRuleErr "attribute error"], [])

/-- End rules, dropoff stage: `dropoff_datetime` must parse; a naive dropoff
more than 30 minutes ahead of `now` is a blocking `FUTURE_DROPOFF` error.
The Bool is true when the stage raised (aware comparison / non-string), in
which case the outer handler has already appended the `BUSINESS_RULE_ERROR`
and the fare stage is skipped. -/
def bizEndDropoff (d : List (String × PyVal)) (now : Int) :
    List VErr × Bool :=
  match dictGet d "dropoff_datetime" with
  | none => ([], false)
  | some v =>
    if !pyTruthy v then ([], false)
    else
      match v with
      | .pstr s =>
        match fromisoformat (pyReplaceZ s) with
        | none =>
          ([⟨ "INVALID_DATETIME", "Invalid dropoff_datetime format",
              "dropoff_datetime" ⟩], false)
        | some (t, aware) =>
          if aware then
            ([bizRuleErr
              "cannot compare offset-naive and offset-aware datetimes"], true)
          else if now + 1800 < t then
            ([⟨ "FUTURE_DROPOFF", "Dropoff time cannot be in the future",
                "dropoff_datetime" ⟩], false)
          else ([], false)
      | _ => ([bizRuleErr "attribute error"], true)

/-- End rules, fare stage: when both `fare_amount` and `trip_distance` are
present and truthy, a fare-per-mile ratio above 50 is a `HIGH_FARE_RATE`
warning. `float()` `ValueError`s are swallowed
(`except (ValueError, ZeroDivisionError): pass`); a `float()` `TypeError`
escapes to the outer handler. -/
def bizEndFare (d : List (String × PyVal)) : List VErr × List VErr :=
  match dictGet d "fare_amount", dictGet d "trip_distance" with
  | some fv, some dv =>
    if pyTruthy fv && pyTruthy dv then
      match pyFloat fv with
      | .error .typeError => ([bizRuleErr "float() argument type"], [])
      | .error _ => ([], [])
      | .ok fare =>
        match pyFloat dv with
        | .error .typeError => ([bizRuleErr "float() argument type"], [])
        | .error _ => ([], [])
        | .ok distance =>
          if 0 < distance then
            if 50 < ratDiv fare distance then
              ([], [⟨ "HIGH_FARE_RATE",
                      "Fare per mile seems unusually high", "fare_amount" ⟩])
            else ([], [])
          else ([], [])
    else ([], [])
  | _, _ => ([], [])

def bizEnd (d : List (String × PyVal)) (now : Int) : List VErr × List VErr :=
  let s1 := bizEndDropoff d now
  if s1.2 then (s1.1, [])
  else
    let s2 := bizEndFare d
    (s1.1 ++ s2.1, s2.2)

/-- `validate_business_rules(payload, event_type)`: errors and warnings. -/
def validate_business_rules (payload : PyVal) (event_type : String)
    (now : Int) : List VErr × List VErr :=
  match payload with
  | .pdict d =>
    if event_type == "trip_start" then bizStart d now
    else if event_type == "trip_end" then bizEnd d now
    else ([], [])
  | _ => ([], [])

/-! ## `validate_event_data` -/

def mkInvalid (es : List VErr) : ValidationResult :=
  ⟨ false, es, [] ⟩

/-- The per-schema stages of `validate_event_data`: required fields, data
types, ranges (all three loops run unconditionally, appending one entry per
violation), then the business rules; `is_valid` is false exactly when some
error was appended. -/
def validateWithSchema (schema : EventSchema) (d : List (String × PyVal))
    (event_type : String) (now : Int) : ValidationResult :=
  let missing := requiredFieldErrors schema d
  let tErrs := typeErrors schema d
  let rErrs := rangeErrors schema d
  let rWarns := rangeWarnings schema d
  let biz := validate_business_rules (.pdict d) event_type now
  { is_valid := missing.isEmpty && tErrs.isEmpty && rErrs.isEmpty
      && biz.1.isEmpty,
    errors := missing ++ tErrs ++ rErrs ++ biz.1,
    warnings := rWarns ++ biz.2 }

/-- `validate_event_data(payload, correlation_id)`: structural sanity, the
`event_type` gate (absent and falsy yield the same `MISSING_FIELD` early
return; an unknown kind yields `INVALID_EVENT_TYPE` and short-circuits),
then the schema stages. The Python `correlation_id` argument is only
logged and is omitted. -/
def validate_event_data (payload : PyVal) (now : Int) : ValidationResult :=
  match payload with
  | .pdict d =>
    match dictGet d "event_type" with
    | none =>
      mkInvalid [⟨ "MISSING_FIELD", "Missing required field: event_type",
                   "event_type" ⟩]
    | some et =>
      if !pyTruthy et then
        mkInvalid [⟨ "MISSING_FIELD", "Missing required field: event_type",
                     "event_type" ⟩]
      else if pyEqStr et "trip_start" then
        validateWithSchema TRIP_START_SCHEMA d "trip_start" now
      else if pyEqStr et "trip_end" then
        validateWithSchema TRIP_END_SCHEMA d "trip_end" now
      else
        mkInvalid [⟨ "INVALID_EVENT_TYPE", "Unknown event type",
                     "event_type" ⟩]
  | _ => mkInvalid [⟨ "STRUCTURE_ERROR", "Payload must be a JSON object",
                      "root" ⟩]

/-! ## The reconciliation store: trip records and merges

`TripRecord` state for one `trip_id` key. A DynamoDB item is a set of
attributes; each attribute is an `Option` field and the wholly-absent item is
the all-`none` record (an `update_item` on a missing key creates the item, so
absence and the empty item are indistinguishable to the source's
`if_not_exists` / `in` tests). The payloads carry the values after the
source's conversions (`int(...)` on validated numeric fields,
`Decimal(str(...))` on validated numbers — value-preserving on the typed
fields). -/

structure StartData where
  pickup_location_id : Int
  dropoff_location_id : Int
  vendor_id : Int
  pickup_datetime : String
  estimated_dropoff_datetime : String
  estimated_fare_amount : Rat
deriving DecidableEq, Repr

structure EndData where
  dropoff_datetime : String
  rate_code : Rat
  passenger_count : Rat
  trip_distance : Rat
  fare_amount : Rat
  tip_amount : Rat
  payment_type : Rat
  trip_type : Rat
deriving DecidableEq, Repr

/-- A trip-start event payload, typed (the fields `process_trip_start`
reads). -/
structure StartPayload where
  trip_id : String
  pickup_location_id : Int
  dropoff_location_id : Int
  vendor_id : Int
  pickup_datetime : String
  estimated_dropoff_datetime : String
  estimated_fare_amount : Rat
deriving DecidableEq, Repr

/-- A trip-end event payload, typed (the fields `process_trip_end` reads). -/
structure EndPayload where
  trip_id : String
  dropoff_datetime : String
  rate_code : Rat
  passenger_count : Rat
  trip_distance : Rat
  fare_amount : Rat
  tip_amount : Rat
  payment_type : Rat
  trip_type : Rat
deriving DecidableEq, Repr

/-- The DynamoDB item for one `trip_id`: every attribute the two update
expressions and `mark_trip_complete` touch. -/
structure TripItem where
  trip_start_data : Option StartData := none
  trip_end_data : Option EndData := none
  pickup_datetime : Option String := none
  dropoff_datetime : Option String := none
  ttl_timestamp : Option Int := none
  is_complete : Option Bool := none
  completion_datetime : Option String := none
  completion_date : Option String := none
deriving DecidableEq, Repr

/-- The absent / freshly-created item. -/
def emptyTripItem : TripItem := {}

/-- The `:start_data` map stored by `process_trip_start`. -/
def startDataOf (p : StartPayload) : StartData :=
  ⟨ p.pickup_location_id, p.dropoff_location_id, p.vendor_id,
    p.pickup_datetime, p.estimated_dropoff_datetime, p.estimated_fare_amount ⟩

/-- The `:end_data` map stored by `process_trip_end`. -/
def endDataOf (q : EndPayload) : EndData :=
  ⟨ q.dropoff_datetime, q.rate_code, q.passenger_count, q.trip_distance,
    q.fare_amount, q.tip_amount, q.payment_type, q.trip_type ⟩

/-- The `update_item` of `process_trip_start`:
`SET trip_start_data = :start_data,
     ttl_timestamp = if_not_exists(ttl_timestamp, :ttl),
     pickup_datetime = :pickup_time`.
`ttl` is the caller's `int((datetime.now() + timedelta(hours=24)).timestamp())`. -/
def mergeStartItem (p : StartPayload) (ttl : Int) (item : TripItem) : TripItem :=
  { item with
    trip_start_data := some (startDataOf p),
    ttl_timestamp := some (item.ttl_timestamp.getD ttl),
    pickup_datetime := some p.pickup_datetime }

/-- The `update_item` of `process_trip_end`:
`SET trip_end_data = :end_data,
     dropoff_datetime = :dropoff_time,
     ttl_timestamp = if_not_exists(ttl_timestamp, :ttl)`. -/
def mergeEndItem (q : EndPayload) (ttl : Int) (item : TripItem) : TripItem :=
  { item with
    trip_end_data := some (endDataOf q),
    dropoff_datetime := some q.dropoff_datetime,
    ttl_timestamp := some (item.ttl_timestamp.getD ttl) }

/-- `mark_trip_complete(trip_id, item)`: the second `update_item`, setting
`is_complete`, `completion_datetime = item['dropoff_datetime']` and
`completion_date = item['dropoff_datetime'][:10]`. The Python subscript
raises `KeyError` when `dropoff_datetime` is absent; in every state the merge
operations can reach, `trip_end_data` present implies `dropoff_datetime`
present (both are set by the same update), so the total `getD ""` default is
never consulted on the call sites' states. -/
def mark_trip_complete (item : TripItem) : TripItem :=
  { item with
    is_complete := some true,
    completion_datetime := some (item.dropoff_datetime.getD ""),
    completion_date := some ((item.dropoff_datetime.getD "").take 10) }

/-- `process_trip_start(event_data)` as a transition on the trip's item:
merge, then the completion check
`if 'trip_end_data' in item and 'trip_start_data' in item`, which calls
`mark_trip_complete` and returns `True` — with no test of `is_complete`.
Returns the post-state and the returned Bool. -/
def process_trip_start (p : StartPayload) (ttl : Int) (st : TripItem) :
    TripItem × Bool :=
  let item := mergeStartItem p ttl st
  if item.trip_end_data.isSome && item.trip_start_data.isSome then
    (mark_trip_complete item, true)
  else (item, false)

/-- `process_trip_end(event_data)`, symmetric to `process_trip_start`. -/
def process_trip_end (q : EndPayload) (ttl : Int) (st : TripItem) :
    TripItem × Bool :=
  let item := mergeEndItem q ttl st
  if item.trip_start_data.isSome && item.trip_end_data.isSome then
    (mark_trip_complete item, true)
  else (item, false)

/-! ## Sequences of merges for one trip id -/

/-- One merge of either half, with the TTL value its call would compute. -/
inductive MergeOp where
  | opStart (p : StartPayload) (ttl : Int)
  | opEnd (q : EndPayload) (ttl : Int)
deriving DecidableEq, Repr

def applyOp (st : TripItem) : MergeOp → TripItem × Bool
  | .opStart p ttl => process_trip_start p ttl st
  | .opEnd q ttl => process_trip_end q ttl st

def opIsStart : MergeOp → Bool
  | .opStart _ _ => true
  | .opEnd _ _ => false

def opTtl : MergeOp → Int
  | .opStart _ ttl => ttl
  | .opEnd _ ttl => ttl

/-- Run a sequence of merges for one trip id from a given item state,
collecting the completion-detection Bool each merge returns. -/
def runMerges (st : TripItem) : List MergeOp → TripItem × List Bool
  | [] => (st, [])
  | op :: ops =>
    let step := applyOp st op
    let rest := runMerges step.1 ops
    (rest.1, step.2 :: rest.2)

/-- Specification-side characterization of the completion flags: starting
with halves-present bits `s`, `e`, each merge's flag is true exactly when
after it both halves have been merged at least once (equivalently, are
present on the record). -/
def flagsFrom (s e : Bool) : List MergeOp → List Bool
  | [] => []
  | op :: ops =>
    let s1 := s || opIsStart op
    let e1 := e || !opIsStart op
    (s1 && e1) :: flagsFrom s1 e1 ops

/-! ## Quarantine archiver, error details, dead-letter router -/

/-- The transport metadata of one Kinesis record
(`record.get('kinesis', {}).get(...)`). -/
structure KinesisMeta where
  sequenceNumber : Option String
  partitionKey : Option String
  approximateArrivalTimestamp : Option Rat
deriving Repr

/-- A raw transport record, as far as the error paths inspect it. -/
structure KRecord where
  kinesis : Option KinesisMeta
deriving Repr

/-- The structured metadata object `archive_invalid_data` writes to S3
(flattened one level: the `kinesis_metadata` sub-dict's three entries are the
three `Option` fields). `timestamp` is the caller's
`datetime.now().isoformat()`. -/
structure ArchiveMetadata where
  timestamp : String
  correlation_id : String
  sequence_number : Option String
  partition_key : Option String
  approximate_arrival_timestamp : Option Rat
  validation_errors : List VErr
  validation_warnings : List VErr
  original_payload : PyVal
  error_category : String

/-- The metadata record `archive_invalid_data` builds; `error_category` is
the hard-coded literal of the source, independent of the errors being
archived. -/
def archiveMetadataOf (nowIso : String) (payload : PyVal) (record : KRecord)
    (verrors vwarnings : List VErr) (correlation_id : String) :
    ArchiveMetadata :=
  { timestamp := nowIso,
    correlation_id := correlation_id,
    sequence_number := (record.kinesis.map KinesisMeta.sequenceNumber).join,
    partition_key := (record.kinesis.map KinesisMeta.partitionKey).join,
    approximate_arrival_timestamp :=
      (record.kinesis.map KinesisMeta.approximateArrivalTimestamp).join,
    validation_errors := verrors,
    validation_warnings := vwarnings,
    original_payload := payload,
    error_category := "VALIDATION_ERROR" }

/-- `archive_invalid_data(payload, record, validation_result,
correlation_id)`. The `errors` / `warnings` arguments are the
`validation_result.get('errors', [])` / `.get('warnings', [])` lists (empty
when the caller passes an `error_details` dict without those keys). `putOk`
is whether the S3 `put_object` call succeeds; any exception inside is caught
and the function returns `False`. Returns the Python Bool and, when written,
the S3 key and metadata. -/
def archive_invalid_data (putOk : Bool) (nowIso dateStr hourStr : String)
    (payload : PyVal) (record : KRecord) (verrors vwarnings : List VErr)
    (correlation_id : String) : Bool × Option (String × ArchiveMetadata) :=
  let metadata :=
    archiveMetadataOf nowIso payload record verrors vwarnings correlation_id
  let s3_key := "invalid-data/date=" ++ dateStr ++ "/hour=" ++ hourStr
    ++ "/" ++ correlation_id ++ ".json"
  if putOk then (true, some (s3_key, metadata)) else (false, none)

/-- The `error_details` dict `handle_categorized_error` returns (its logging
side effects are dropped; `record_metadata` is flattened into the two
`Option` fields). -/
structure ErrorDetails where
  timestamp : String
  correlation_id : String
  error_category : String
  error_type : String
  error_message : String
  sequence_number : Option String
  partition_key : Option String
deriving Repr

def handle_categorized_error (nowIso : String) (e : PyExc) (category : String)
    (record : KRecord) (correlation_id : String) : ErrorDetails :=
  { timestamp := nowIso,
    correlation_id := correlation_id,
    error_category := category,
    error_type := excClassName e.cls,
    error_message := e.msg,
    sequence_number := (record.kinesis.map KinesisMeta.sequenceNumber).join,
    partition_key := (record.kinesis.map KinesisMeta.partitionKey).join }

/-- The message `send_to_dlq` enqueues. -/
structure DlqMessage where
  original_record : KRecord
  error_details : ErrorDetails
  retry_count : Nat
  max_retries : Nat
  correlation_id : String

/-- `send_to_dlq(record, error_details, correlation_id)`: with no configured
queue URL (`if not dlq_url:` — the environment default is the empty string)
it returns `False` without sending; otherwise it builds the message
`{original_record, error_details, retry_count: 0, max_retries: 3,
correlation_id}` and sends it. `sendOk` is whether the SQS `send_message`
call succeeds; an exception inside is caught and the function returns
`False`. Returns the Python Bool and the message actually delivered, if
any. -/
def send_to_dlq (dlq_url : String) (sendOk : Bool) (record : KRecord)
    (error_details : ErrorDetails) (correlation_id : String) :
    Bool × Option DlqMessage :=
  if dlq_url == "" then (false, none)
  else
    let dlq_message : DlqMessage :=
      ⟨ record, error_details, 0, 3, correlation_id ⟩
    if sendOk then (true, some dlq_message) else (false, none)

/-! ## Typed views of validated payloads

`process_trip_start` / `process_trip_end` read payload fields with `[]`,
`int(...)` and `Decimal(str(...))`. These conversions succeed exactly on the
shapes the schema validator admits; `none` models the exception the Python
conversions would raise (`KeyError` / `ValueError` / `TypeError` /
`InvalidOperation`), routed through the handler's generic `except` clause. -/

def startPayloadOfDict (d : List (String × PyVal)) : Option StartPayload :=
  match dictGet d "trip_id" with
  | some (.pstr tid) =>
    match (dictGet d "pickup_location_id").bind pyInt,
          (dictGet d "dropoff_location_id").bind pyInt,
          (dictGet d "vendor_id").bind pyInt,
          dictGet d "pickup_datetime",
          dictGet d "estimated_dropoff_datetime",
          (dictGet d "estimated_fare_amount").bind pyDecimalOfStr with
    | some pl, some dl, some vz, some (.pstr pdt), some (.pstr edt),
      some fare => some ⟨ tid, pl, dl, vz, pdt, edt, fare ⟩
    | _, _, _, _, _, _ => none
  | _ => none

def endPayloadOfDict (d : List (String × PyVal)) : Option EndPayload :=
  match dictGet d "trip_id", dictGet d "dropoff_datetime" with
  | some (.pstr tid), some (.pstr ddt) =>
    match (dictGet d "rate_code").bind pyDecimalOfStr,
          (dictGet d "passenger_count").bind pyDecimalOfStr,
          (dictGet d "trip_distance").bind pyDecimalOfStr,
          (dictGet d "fare_amount").bind pyDecimalOfStr,
          (dictGet d "tip_amount").bind pyDecimalOfStr,
          (dictGet d "payment_type").bind pyDecimalOfStr,
          (dictGet d "trip_type").bind pyDecimalOfStr with
    | some rc, some pc, some td, some fa, some ta, some pt, some tt =>
      some ⟨ tid, ddt, rc, pc, td, fa, ta, pt, tt ⟩
    | _, _, _, _, _, _, _ => none
  | _, _ => none

/-! ## The enhanced batch handler (`lambda_handler` of
`src/glue/daily_kpi_aggregation.py`) -/

/-- The DynamoDB table, keyed by `trip_id`. -/
def TripTable := String → TripItem

def emptyTable : TripTable := fun _ => emptyTripItem

def tableSet (t : TripTable) (k : String) (v : TripItem) : TripTable :=
  fun x => if x == k then v else t x

/-- The handler's environment: the wall clock in its various uses, the batch
correlation id (the per-record `-index` suffix is elided), and the `DLQ_URL`
environment variable. -/
structure Env where
  now : Int
  ttl : Int
  nowIso : String
  dateStr : String
  hourStr : String
  correlation_id : String
  dlq_url : String

/-- The counters of the summary body, plus the constant `statusCode`. -/
structure Summary where
  statusCode : Nat
  processed_count : Nat
  error_count : Nat
  completed_trips : Nat
  validation_errors : Nat
  archived_invalid : Nat
deriving DecidableEq, Repr

def initSummary : Summary := ⟨ 200, 0, 0, 0, 0, 0 ⟩

/-- One record of the batch, together with the behaviour of the external
world while processing it: the decode outcome of its base64 / JSON data
(`Except.error` is a `json.JSONDecodeError`), an optional exception raised by
the DynamoDB update during processing, and whether the S3 / SQS calls of the
error paths succeed. -/
structure RecordInput where
  decode : Except String PyVal
  storageFault : Option PyExc
  s3Ok : Bool
  sqsOk : Bool
  kmeta : KRecord

/-- The handler's `except` ladder for a raised exception `e`:
`except ValidationError` (archive, count as validation error),
`except json.JSONDecodeError` (dead-letter as `SCHEMA_ERROR`), then
`except Exception` (classify; dead-letter `TRANSIENT_ERROR` / `SYSTEM_ERROR`);
each clause increments `error_count`. Returns table, summary, dead-letter
delivery count. -/
def exceptClauses (env : Env) (st : TripTable) (s : Summary) (dq : Nat)
    (r : RecordInput) (e : PyExc) : TripTable × Summary × Nat :=
  if pyIsinstanceExc e.cls .validationError then
    (st, { s with validation_errors := s.validation_errors + 1,
                  error_count := s.error_count + 1 }, dq)
  else if pyIsinstanceExc e.cls .jsonDecodeError then
    let ed := handle_categorized_error env.nowIso e ErrorCategory.SCHEMA_ERROR
      r.kmeta env.correlation_id
    let sent := (send_to_dlq env.dlq_url r.sqsOk r.kmeta ed
      env.correlation_id).1
    (st, { s with error_count := s.error_count + 1 },
     dq + if sent then 1 else 0)
  else
    let cat := categorize_error e
    let ed := handle_categorized_error env.nowIso e cat r.kmeta
      env.correlation_id
    let sent :=
      if cat == ErrorCategory.TRANSIENT_ERROR
          || cat == ErrorCategory.SYSTEM_ERROR then
        (send_to_dlq env.dlq_url r.sqsOk r.kmeta ed env.correlation_id).1
      else false
    (st, { s with error_count := s.error_count + 1 },
     dq + if sent then 1 else 0)

/-- The body of the enhanced handler's `for record in event['Records']` loop
for one record: decode, validate (invalid records are archived and counted),
then dispatch on `event_type` into the merge operations; exceptions follow
`exceptClauses`. A record that decodes to a non-dict raises `AttributeError`
at the `payload.get` logging call; a valid record with an event type other
than the two known kinds is logged and skipped without touching any counter
(the `else: continue` branch — unreachable, since validation admits only the
two kinds). -/
def stepRecord (env : Env) (st : TripTable) (s : Summary) (dq : Nat)
    (r : RecordInput) : TripTable × Summary × Nat :=
  match r.decode with
  | .error msg => exceptClauses env st s dq r ⟨ .jsonDecodeError, msg ⟩
  | .ok payload =>
    match payload with
    | .pdict d =>
      let vr := validate_event_data (.pdict d) env.now
      if !vr.is_valid then
        let archived := (archive_invalid_data r.s3Ok env.nowIso env.dateStr
          env.hourStr (.pdict d) r.kmeta vr.errors vr.warnings
          env.correlation_id).1
        (st, { s with
            archived_invalid := s.archived_invalid
              + (if archived then 1 else 0),
            validation_errors := s.validation_errors + 1,
            error_count := s.error_count + 1 }, dq)
      else
        match dictGet d "event_type" with
        | none => exceptClauses env st s dq r ⟨ .keyError, "event_type" ⟩
        | some et =>
          if pyEqStr et "trip_start" then
            match r.storageFault with
            | some e => exceptClauses env st s dq r e
            | none =>
              match startPayloadOfDict d with
              | some p =>
                let res := process_trip_start p env.ttl (st p.trip_id)
                (tableSet st p.trip_id res.1,
                 { s with
                    processed_count := s.processed_count + 1,
                    completed_trips := s.completed_trips
                      + (if res.2 then 1 else 0) }, dq)
              | none =>
                exceptClauses env st s dq r ⟨ .keyError, "trip start field" ⟩
          else if pyEqStr et "trip_end" then
            match r.storageFault with
            | some e => exceptClauses env st s dq r e
            | none =>
              match endPayloadOfDict d with
              | some q =>
                let res := process_trip_end q env.ttl (st q.trip_id)
                (tableSet st q.trip_id res.1,
                 { s with
                    processed_count := s.processed_count + 1,
                    completed_trips := s.completed_trips
                      + (if res.2 then 1 else 0) }, dq)
              | none =>
                exceptClauses env st s dq r ⟨ .keyError, "trip end field" ⟩
          else (st, s, dq)
    | _ =>
      exceptClauses env st s dq r ⟨ .attributeError,
        "object has no attribute get" ⟩

structure BatchResult where
  summary : Summary
  dlqSends : Nat
  table : TripTable

def lambdaLoop (env : Env) :
    List RecordInput → TripTable → Summary → Nat → BatchResult
  | [], st, s, dq => ⟨ s, dq, st ⟩
  | r :: rs, st, s, dq =>
    let step := stepRecord env st s dq r
    lambdaLoop env rs step.1 step.2.1 step.2.2

/-- The enhanced `lambda_handler`: fold the per-record step over the batch
from zeroed counters and return the `statusCode: 200` summary. -/
def lambda_handler (env : Env) (records : List RecordInput)
    (st : TripTable) : BatchResult :=
  lambdaLoop env records st initSummary 0

/-! ## The basic batch handler (`lambda_handler` of
`src/lambda/stream_processor/handler.py`) -/

structure BasicSummary where
  statusCode : Nat
  processed_count : Nat
  error_count : Nat
  completed_trips : Nat
deriving DecidableEq, Repr

def initBasicSummary : BasicSummary := ⟨ 200, 0, 0, 0 ⟩

/-- One iteration of the basic handler's loop: no validation; any exception
(decode failure, `payload['event_type']` on a non-dict or without the key,
storage fault, field conversion) is swallowed by the single
`except Exception` with `error_count += 1`; an event type other than the two
known kinds is logged and skipped without touching any counter. -/
def basicStep (env : Env) (st : TripTable) (s : BasicSummary)
    (r : RecordInput) : TripTable × BasicSummary :=
  match r.decode with
  | .error _ => (st, { s with error_count := s.error_count + 1 })
  | .ok payload =>
    match payload with
    | .pdict d =>
      match dictGet d "event_type" with
      | none => (st, { s with error_count := s.error_count + 1 })
      | some et =>
        if pyEqStr et "trip_start" then
          match r.storageFault with
          | some _ => (st, { s with error_count := s.error_count + 1 })
          | none =>
            match startPayloadOfDict d with
            | some p =>
              let res := process_trip_start p env.ttl (st p.trip_id)
              (tableSet st p.trip_id res.1,
               { s with
                  processed_count := s.processed_count + 1,
                  completed_trips := s.completed_trips
                    + (if res.2 then 1 else 0) })
            | none => (st, { s with error_count := s.error_count + 1 })
        else if pyEqStr et "trip_end" then
          match r.storageFault with
          | some _ => (st, { s with error_count := s.error_count + 1 })
          | none =>
            match endPayloadOfDict d with
            | some q =>
              let res := process_trip_end q env.ttl (st q.trip_id)
              (tableSet st q.trip_id res.1,
               { s with
                  processed_count := s.processed_count + 1,
                  completed_trips := s.completed_trips
                    + (if res.2 then 1 else 0) })
            | none => (st, { s with error_count := s.error_count + 1 })
        else (st, s)
    | _ => (st, { s with error_count := s.error_count + 1 })

def basicLoop (env : Env) :
    List RecordInput → TripTable → BasicSummary → TripTable × BasicSummary
  | [], st, s => (st, s)
  | r :: rs, st, s =>
    let step := basicStep env st s r
    basicLoop env rs step.1 step.2

/-- The basic `lambda_handler`. -/
def basic_lambda_handler (env : Env) (records : List RecordInput)
    (st : TripTable) : TripTable × BasicSummary :=
  basicLoop env records st initBasicSummary

/-! # Helper lemmas -/

theorem mark_preserves_start (item : TripItem) :
    (mark_trip_complete item).trip_start_data = item.trip_start_data := rfl

theorem mark_preserves_end (item : TripItem) :
    (mark_trip_complete item).trip_end_data = item.trip_end_data := rfl

theorem mark_preserves_ttl (item : TripItem) :
    (mark_trip_complete item).ttl_timestamp = item.ttl_timestamp := rfl

theorem applyOp_fst_start (st : TripItem) (op : MergeOp) :
    ((applyOp st op).1).trip_start_data.isSome
      = (st.trip_start_data.isSome || opIsStart op) := by
  cases op <;> cases h1 : st.trip_start_data <;> cases h2 : st.trip_end_data <;>
    simp [applyOp, process_trip_start, process_trip_end, mergeStartItem,
      mergeEndItem, mark_trip_complete, opIsStart, h1, h2]

theorem applyOp_fst_end (st : TripItem) (op : MergeOp) :
    ((applyOp st op).1).trip_end_data.isSome
      = (st.trip_end_data.isSome || !opIsStart op) := by
  cases op <;> cases h1 : st.trip_start_data <;> cases h2 : st.trip_end_data <;>
    simp [applyOp, process_trip_start, process_trip_end, mergeStartItem,
      mergeEndItem, mark_trip_complete, opIsStart, h1, h2]

theorem applyOp_snd (st : TripItem) (op : MergeOp) :
    (applyOp st op).2
      = ((st.trip_start_data.isSome || opIsStart op)
         && (st.trip_end_data.isSome || !opIsStart op)) := by
  cases op <;> cases h1 : st.trip_start_data <;> cases h2 : st.trip_end_data <;>
    simp [applyOp, process_trip_start, process_trip_end, mergeStartItem,
      mergeEndItem, mark_trip_complete, opIsStart, h1, h2]

theorem applyOp_ttl (st : TripItem) (op : MergeOp) :
    ((applyOp st op).1).ttl_timestamp
      = some (st.ttl_timestamp.getD (opTtl op)) := by
  cases op <;> cases h1 : st.trip_start_data <;> cases h2 : st.trip_end_data <;>
    simp [applyOp, process_trip_start, process_trip_end, mergeStartItem,
      mergeEndItem, mark_trip_complete, opTtl, h1, h2]

theorem runMerges_flags (ops : List MergeOp) : ∀ st : TripItem,
    (runMerges st ops).2
      = flagsFrom st.trip_start_data.isSome st.trip_end_data.isSome ops := by
  induction ops with
  | nil => intro st; rfl
  | cons op ops ih =>
    intro st
    simp only [runMerges, flagsFrom, ih (applyOp st op).1,
      applyOp_fst_start, applyOp_fst_end, applyOp_snd]

theorem runMerges_ttl_frozen (ops : List MergeOp) :
    ∀ (st : TripItem) (t : Int), st.ttl_timestamp = some t →
      ((runMerges st ops).1).ttl_timestamp = some t := by
  induction ops with
  | nil => intro st t h; exact h
  | cons op ops ih =>
    intro st t h
    simp only [runMerges]
    exact ih _ t (by rw [applyOp_ttl, h]; rfl)

/-! # Concrete demonstration data -/

def demoStart : StartPayload :=
  ⟨ "T1", 10, 20, 2, "2024-05-25T08:00:00", "2024-05-25T08:30:00", 15 ⟩

def demoEnd : EndPayload :=
  ⟨ "T1", "2024-05-25T08:31:00", 1, 1, mkRat 16 5, mkRat 29 2, 2, 1, 1 ⟩

/-- Start, End, then a duplicate End for the same trip id. -/
def demoOps : List MergeOp :=
  [.opStart demoStart 111, .opEnd demoEnd 222, .opEnd demoEnd 333]

/-! # Claims -/

/-- C1 (counterexample): for the merge sequence Start, End, duplicate End of
one trip id, the completion detection step returns `[false, true, true]` —
true twice, not exactly once; in particular the third merge is invoked on a
record that is already complete (`is_complete` was set by the second) and
still returns true and re-writes the completion fields, because the source
checks only the presence of the two halves and never `is_complete`. -/
theorem C1_counterexample :
    (runMerges emptyTripItem demoOps).2 = [false, true, true]
    ∧ (runMerges emptyTripItem demoOps).2.count true ≠ 1 := by
  constructor
  · decide
  · decide

/-- C1 (amended): across any sequence of merges of one trip id from the
absent record, the completion detection step after merge `i` returns true
exactly when the merges up to and including `i` contain at least one Start
and at least one End — that is, on every merge from the first at which both
halves are present, not exactly once; it returns false only while a half is
still missing, and an already-complete record yields true again. -/
theorem C1_completion_flags (ops : List MergeOp) :
    (runMerges emptyTripItem ops).2 = flagsFrom false false ops := by
  simpa [emptyTripItem] using runMerges_flags ops emptyTripItem

/-- C2: merging Start then End or End then Start for the same trip id and
payloads yields the same `is_complete`, `completion_time`,
`completion_date`, `start_data` and `end_data` (the TTL values each call
would use are arbitrary). -/
theorem C2_order_independence (p : StartPayload) (q : EndPayload)
    (t1 t2 : Int) :
    ((process_trip_end q t2 (process_trip_start p t1 emptyTripItem).1).1.is_complete
      = (process_trip_start p t1 (process_trip_end q t2 emptyTripItem).1).1.is_complete)
    ∧ ((process_trip_end q t2 (process_trip_start p t1 emptyTripItem).1).1.completion_datetime
      = (process_trip_start p t1 (process_trip_end q t2 emptyTripItem).1).1.completion_datetime)
    ∧ ((process_trip_end q t2 (process_trip_start p t1 emptyTripItem).1).1.completion_date
      = (process_trip_start p t1 (process_trip_end q t2 emptyTripItem).1).1.completion_date)
    ∧ ((process_trip_end q t2 (process_trip_start p t1 emptyTripItem).1).1.trip_start_data
      = (process_trip_start p t1 (process_trip_end q t2 emptyTripItem).1).1.trip_start_data)
    ∧ ((process_trip_end q t2 (process_trip_start p t1 emptyTripItem).1).1.trip_end_data
      = (process_trip_start p t1 (process_trip_end q t2 emptyTripItem).1).1.trip_end_data) :=
  ⟨ rfl, rfl, rfl, rfl, rfl ⟩

/-- C3: merging the same Start payload twice stores `start_data` equal to
the payload's data and leaves `ttl_timestamp` unchanged between the merges
(`if_not_exists` keeps the first value); in general, over any nonempty merge
sequence from the absent record, `ttl_timestamp` is the first merge's TTL
and no later merge modifies it. -/
theorem C3_ttl_first_writer_wins (p : StartPayload) (t1 t2 : Int)
    (op : MergeOp) (ops : List MergeOp) :
    ((process_trip_start p t2 (process_trip_start p t1 emptyTripItem).1).1.trip_start_data
      = some (startDataOf p))
    ∧ ((process_trip_start p t2 (process_trip_start p t1 emptyTripItem).1).1.ttl_timestamp
      = (process_trip_start p t1 emptyTripItem).1.ttl_timestamp)
    ∧ ((process_trip_start p t1 emptyTripItem).1.ttl_timestamp = some t1)
    ∧ (((runMerges emptyTripItem (op :: ops)).1).ttl_timestamp
      = some (opTtl op)) := by
  refine ⟨ rfl, rfl, rfl, ?_ ⟩
  have h1 : ((applyOp emptyTripItem op).1).ttl_timestamp = some (opTtl op) := by
    rw [applyOp_ttl]; rfl
  simpa only [runMerges] using
    runMerges_ttl_frozen ops (applyOp emptyTripItem op).1 (opTtl op) h1

/-- A JSON decode failure as `json.loads` raises it. -/
def demoDecodeFailure : PyExc :=
  ⟨ .jsonDecodeError, "Expecting value: line 1 column 1 (char 0)" ⟩

/-- C5 (the code at the claimed behaviour's input): `categorize_error` maps a
`json.JSONDecodeError` to `VALIDATION_ERROR`, not `SCHEMA_ERROR`: the first
rule (`isinstance(error, (ValidationError, ValueError, TypeError))`)
captures it because `JSONDecodeError` subclasses `ValueError`, so the
classifier's own dedicated `JSONDecodeError → SCHEMA_ERROR` rule is dead
code. -/
theorem C5_decode_failure_misclassified :
    categorize_error demoDecodeFailure = ErrorCategory.VALIDATION_ERROR
    ∧ categorize_error demoDecodeFailure ≠ ErrorCategory.SCHEMA_ERROR := by
  constructor
  · rfl
  · decide

/-- C8 (counterexample): a storage failure whose message contains
`ConditionalCheckFailed` does not always classify as
`BUSINESS_RULE_ERROR` — the throttling rule is evaluated first, so a message
also containing `ProvisionedThroughputExceeded` classifies as
`TRANSIENT_ERROR`. -/
theorem C8_counterexample :
    strHasSub
      (strLower "ProvisionedThroughputExceeded while ConditionalCheckFailed")
      "conditionalcheckfailed" = true
    ∧ categorize_error ⟨ .clientError,
        "ProvisionedThroughputExceeded while ConditionalCheckFailed" ⟩
      = ErrorCategory.TRANSIENT_ERROR
    ∧ categorize_error ⟨ .clientError,
        "ProvisionedThroughputExceeded while ConditionalCheckFailed" ⟩
      ≠ ErrorCategory.BUSINESS_RULE_ERROR := by
  refine ⟨ by decide, by decide, by decide ⟩

/-- C8 (amended): for a storage failure (botocore `ClientError`), a message
containing `ProvisionedThroughputExceeded` always classifies as
`TRANSIENT_ERROR`; a message containing `ConditionalCheckFailed` classifies
as `BUSINESS_RULE_ERROR` provided it does not also match the earlier
throttling rule (no `throttling` / `ProvisionedThroughputExceeded`
substring, case-insensitively). -/
theorem C8_storage_failure_classification (msg : String) :
    (strHasSub (strLower msg) "provisionedthroughputexceeded" = true →
      categorize_error ⟨ .clientError, msg ⟩ = ErrorCategory.TRANSIENT_ERROR)
    ∧ (strHasSub (strLower msg) "conditionalcheckfailed" = true →
       strHasSub (strLower msg) "throttling" = false →
       strHasSub (strLower msg) "provisionedthroughputexceeded" = false →
        categorize_error ⟨ .clientError, msg ⟩
          = ErrorCategory.BUSINESS_RULE_ERROR) := by
  constructor
  · intro h
    simp [categorize_error, pyIsinstanceExc, classAncestors, h]
  · intro h1 h2 h3
    simp [categorize_error, pyIsinstanceExc, classAncestors, h1, h2, h3]

/-- C8 (witness): the theorem applied at the two standard DynamoDB
messages. -/
theorem C8_storage_failure_classification_witness :
    categorize_error ⟨ .clientError,
      "An error occurred (ProvisionedThroughputExceededException)" ⟩
      = ErrorCategory.TRANSIENT_ERROR
    ∧ categorize_error ⟨ .clientError,
        "An error occurred (ConditionalCheckFailedException): The conditional request failed" ⟩
      = ErrorCategory.BUSINESS_RULE_ERROR :=
  ⟨ (C8_storage_failure_classification
      "An error occurred (ProvisionedThroughputExceededException)").1
      (by decide),
    (C8_storage_failure_classification
      "An error occurred (ConditionalCheckFailedException): The conditional request failed").2
      (by decide) (by decide) (by decide) ⟩

/-- C9: the quarantine archive record always carries
`error_category = "VALIDATION_ERROR"` — the field is the hard-coded literal
of `archive_invalid_data`, whatever errors or warnings are being archived
and whatever caused them; the second conjunct states it for the record a
successful archive call actually writes. -/
theorem C9_archive_category_fixed (nowIso dateStr hourStr : String)
    (payload : PyVal) (record : KRecord) (verrors vwarnings : List VErr)
    (cid : String) :
    ((archiveMetadataOf nowIso payload record verrors vwarnings cid).error_category
      = "VALIDATION_ERROR")
    ∧ ((archive_invalid_data true nowIso dateStr hourStr payload record
          verrors vwarnings cid).2.map (fun w => w.2.error_category)
        = some "VALIDATION_ERROR") :=
  ⟨ rfl, rfl ⟩

/-! # Validator claims -/

/-- A fully valid Start payload dict (naive timestamps, every range
satisfied). -/
def validStartDict : List (String × PyVal) :=
  [("event_type", .pstr "trip_start"),
   ("trip_id", .pstr "T1"),
   ("pickup_location_id", .pint 10),
   ("dropoff_location_id", .pint 20),
   ("vendor_id", .pint 2),
   ("pickup_datetime", .pstr "2024-05-25T08:00:00"),
   ("estimated_dropoff_datetime", .pstr "2024-05-25T08:30:00"),
   ("estimated_fare_amount", .pfloat 15)]

/-- The same payload with `vendor_id` removed and nothing else changed. -/
def startNoVendorDict : List (String × PyVal) :=
  [("event_type", .pstr "trip_start"),
   ("trip_id", .pstr "T1"),
   ("pickup_location_id", .pint 10),
   ("dropoff_location_id", .pint 20),
   ("pickup_datetime", .pstr "2024-05-25T08:00:00"),
   ("estimated_dropoff_datetime", .pstr "2024-05-25T08:30:00"),
   ("estimated_fare_amount", .pfloat 15)]

/-- `vendor_id` removed and, in addition, an out-of-range fare (0.005). -/
def startNoVendorLowFareDict : List (String × PyVal) :=
  [("event_type", .pstr "trip_start"),
   ("trip_id", .pstr "T1"),
   ("pickup_location_id", .pint 10),
   ("dropoff_location_id", .pint 20),
   ("pickup_datetime", .pstr "2024-05-25T08:00:00"),
   ("estimated_dropoff_datetime", .pstr "2024-05-25T08:30:00"),
   ("estimated_fare_amount", .pfloat (mkRat 1 200))]

/-- A valid Start payload with `estimated_fare_amount = 0.005`. -/
def startLowFareDict : List (String × PyVal) :=
  [("event_type", .pstr "trip_start"),
   ("trip_id", .pstr "T1"),
   ("pickup_location_id", .pint 10),
   ("dropoff_location_id", .pint 20),
   ("vendor_id", .pint 2),
   ("pickup_datetime", .pstr "2024-05-25T08:00:00"),
   ("estimated_dropoff_datetime", .pstr "2024-05-25T08:30:00"),
   ("estimated_fare_amount", .pfloat (mkRat 1 200))]

/-- A valid Start payload with `estimated_fare_amount = 0.01`, the lower
bound exactly. -/
def startFareAtBoundDict : List (String × PyVal) :=
  [("event_type", .pstr "trip_start"),
   ("trip_id", .pstr "T1"),
   ("pickup_location_id", .pint 10),
   ("dropoff_location_id", .pint 20),
   ("vendor_id", .pint 2),
   ("pickup_datetime", .pstr "2024-05-25T08:00:00"),
   ("estimated_dropoff_datetime", .pstr "2024-05-25T08:30:00"),
   ("estimated_fare_amount", .pfloat (mkRat 1 100))]

/-- C6: for any wall-clock instant, a Start payload lacking only `vendor_id`
yields exactly the one `MISSING_FIELD` error for field `vendor_id` (with the
source's message) and `is_valid = false`; and the checks do not
short-circuit: a payload that both lacks `vendor_id` and has an out-of-range
fare reports both violations in the one invocation, in check order. -/
theorem C6_missing_vendor_single_error (now : Int) :
    ((validate_event_data (.pdict startNoVendorDict) now).errors
      = [⟨ "MISSING_FIELD", "Missing required field: vendor_id",
           "vendor_id" ⟩])
    ∧ ((validate_event_data (.pdict startNoVendorDict) now).is_valid = false)
    ∧ ((validate_event_data (.pdict startNoVendorLowFareDict) now).errors.map
        (fun e => (e.etype, e.field))
      = [("MISSING_FIELD", "vendor_id"),
         ("RANGE_ERROR", "estimated_fare_amount")]) :=
  ⟨ rfl, rfl, rfl ⟩

/-- C7: range bounds are inclusive: `estimated_fare_amount = 0.005` yields a
`RANGE_ERROR` on that field (and no other error) with `is_valid = false`,
while the otherwise identical payload with `estimated_fare_amount = 0.01`
validates with no error at all. -/
theorem C7_fare_range_boundary (now : Int) :
    ((validate_event_data (.pdict startLowFareDict) now).errors.map
        (fun e => (e.etype, e.field))
      = [("RANGE_ERROR", "estimated_fare_amount")])
    ∧ ((validate_event_data (.pdict startLowFareDict) now).is_valid = false)
    ∧ ((validate_event_data (.pdict startFareAtBoundDict) now).errors = [])
    ∧ ((validate_event_data (.pdict startFareAtBoundDict) now).is_valid
      = true) :=
  ⟨ rfl, rfl, rfl, rfl ⟩

/-! # Handler lemmas -/

/-- A payload that validates has an `event_type` equal to one of the two
known kinds (so the handler's `else: continue` arm is unreachable for valid
records). -/
theorem valid_event_type (d : List (String × PyVal)) (now : Int)
    (h : (validate_event_data (.pdict d) now).is_valid = true) :
    ∃ et, dictGet d "event_type" = some et
      ∧ (pyEqStr et "trip_start" = true ∨ pyEqStr et "trip_end" = true) := by
  simp only [validate_event_data] at h
  cases heq : dictGet d "event_type" with
  | none => rw [heq] at h; simp [mkInvalid] at h
  | some et =>
    rw [heq] at h
    refine ⟨ et, rfl, ?_ ⟩
    by_cases h1 : pyEqStr et "trip_start" = true
    · exact .inl h1
    · by_cases h2 : pyEqStr et "trip_end" = true
      · exact .inr h2
      · exfalso
        by_cases ht : pyTruthy et = true
        · simp [ht, h1, h2, mkInvalid] at h
        · have hf : pyTruthy et = false := by
            cases hv : pyTruthy et
            · rfl
            · exact absurd hv ht
          simp [hf, mkInvalid] at h

theorem exceptClauses_counts (env : Env) (st : TripTable) (s : Summary)
    (dq : Nat) (r : RecordInput) (e : PyExc) :
    (exceptClauses env st s dq r e).2.1.processed_count
        + (exceptClauses env st s dq r e).2.1.error_count
      = s.processed_count + s.error_count + 1
    ∧ (exceptClauses env st s dq r e).2.1.statusCode = s.statusCode := by
  unfold exceptClauses
  split
  · exact ⟨ rfl, rfl ⟩
  · split <;> exact ⟨ rfl, rfl ⟩

theorem pyEqStr_end_not_start (et : PyVal)
    (h : pyEqStr et "trip_end" = true) :
    pyEqStr et "trip_start" = false := by
  cases et <;> simp [pyEqStr] at h ⊢
  subst h; decide

theorem stepRecord_counts (env : Env) (st : TripTable) (s : Summary)
    (dq : Nat) (r : RecordInput) :
    (stepRecord env st s dq r).2.1.processed_count
        + (stepRecord env st s dq r).2.1.error_count
      = s.processed_count + s.error_count + 1
    ∧ (stepRecord env st s dq r).2.1.statusCode = s.statusCode := by
  cases hdec : r.decode with
  | error msg =>
    simp only [stepRecord, hdec]
    exact exceptClauses_counts env st s dq r _
  | ok payload =>
    cases payload with
    | pdict d =>
      simp only [stepRecord, hdec]
      by_cases hv : (validate_event_data (.pdict d) env.now).is_valid = true
      · simp only [hv, Bool.not_true, Bool.false_eq_true, if_false]
        obtain ⟨ et, heq, hor ⟩ := valid_event_type d env.now hv
        simp only [heq]
        rcases hor with h1 | h2
        · simp only [h1, if_true]
          cases hsf : r.storageFault with
          | some e => exact exceptClauses_counts env st s dq r e
          | none =>
            cases hps : startPayloadOfDict d with
            | some p =>
              refine ⟨ ?_, by trivial ⟩
              show s.processed_count + 1 + s.error_count
                = s.processed_count + s.error_count + 1
              omega
            | none => exact exceptClauses_counts env st s dq r _
        · simp only [pyEqStr_end_not_start et h2, h2, Bool.false_eq_true,
            if_false, if_true]
          cases hsf : r.storageFault with
          | some e => exact exceptClauses_counts env st s dq r e
          | none =>
            cases hps : endPayloadOfDict d with
            | some q =>
              refine ⟨ ?_, by trivial ⟩
              show s.processed_count + 1 + s.error_count
                = s.processed_count + s.error_count + 1
              omega
            | none => exact exceptClauses_counts env st s dq r _
      · have hf : (validate_event_data (.pdict d) env.now).is_valid = false := by
          cases hval : (validate_event_data (.pdict d) env.now).is_valid
          · rfl
          · exact absurd hval hv
        simp only [hf, Bool.not_false, if_true]
        refine ⟨ ?_, by trivial ⟩
        show s.processed_count + (s.error_count + 1)
          = s.processed_count + s.error_count + 1
        omega
    | pnone =>
      simp only [stepRecord, hdec]; exact exceptClauses_counts env st s dq r _
    | pbool b =>
      simp only [stepRecord, hdec]; exact exceptClauses_counts env st s dq r _
    | pint n =>
      simp only [stepRecord, hdec]; exact exceptClauses_counts env st s dq r _
    | pfloat q =>
      simp only [stepRecord, hdec]; exact exceptClauses_counts env st s dq r _
    | pstr t =>
      simp only [stepRecord, hdec]; exact exceptClauses_counts env st s dq r _
    | plist xs =>
      simp only [stepRecord, hdec]; exact exceptClauses_counts env st s dq r _

theorem exceptClauses_dlq_empty (env : Env) (st : TripTable) (s : Summary)
    (dq : Nat) (r : RecordInput) (e : PyExc) (h : env.dlq_url = "") :
    (exceptClauses env st s dq r e).2.2 = dq := by
  unfold exceptClauses
  split
  · rfl
  · split <;> simp [send_to_dlq, h]

theorem stepRecord_dlq_empty (env : Env) (st : TripTable) (s : Summary)
    (dq : Nat) (r : RecordInput) (h : env.dlq_url = "") :
    (stepRecord env st s dq r).2.2 = dq := by
  cases hdec : r.decode with
  | error msg =>
    simp only [stepRecord, hdec]
    exact exceptClauses_dlq_empty env st s dq r _ h
  | ok payload =>
    cases payload <;> simp only [stepRecord, hdec] <;>
      first
        | exact exceptClauses_dlq_empty env st s dq r _ h
        | (repeat' split) <;>
            first
              | rfl
              | exact exceptClauses_dlq_empty env st s dq r _ h

theorem basicStep_status (env : Env) (st : TripTable) (s : BasicSummary)
    (r : RecordInput) :
    (basicStep env st s r).2.statusCode = s.statusCode := by
  unfold basicStep
  (repeat' split) <;> rfl

theorem lambdaLoop_counts (env : Env) (rs : List RecordInput) :
    ∀ (st : TripTable) (s : Summary) (dq : Nat),
      (lambdaLoop env rs st s dq).summary.processed_count
          + (lambdaLoop env rs st s dq).summary.error_count
        = s.processed_count + s.error_count + rs.length
      ∧ (lambdaLoop env rs st s dq).summary.statusCode = s.statusCode := by
  induction rs with
  | nil => intro st s dq; exact ⟨ by simp [lambdaLoop], rfl ⟩
  | cons r rs ih =>
    intro st s dq
    have hstep := stepRecord_counts env st s dq r
    have hrec := ih (stepRecord env st s dq r).1 (stepRecord env st s dq r).2.1
      (stepRecord env st s dq r).2.2
    constructor
    · simp only [lambdaLoop, List.length_cons]
      have h1 := hrec.1
      have h2 := hstep.1
      omega
    · simp only [lambdaLoop]
      rw [hrec.2, hstep.2]

theorem lambdaLoop_dlq_empty (env : Env) (h : env.dlq_url = "")
    (rs : List RecordInput) :
    ∀ (st : TripTable) (s : Summary) (dq : Nat),
      (lambdaLoop env rs st s dq).dlqSends = dq := by
  induction rs with
  | nil => intro st s dq; rfl
  | cons r rs ih =>
    intro st s dq
    simp only [lambdaLoop]
    rw [ih _ _ _, stepRecord_dlq_empty env st s dq r h]

theorem basicLoop_status (env : Env) (rs : List RecordInput) :
    ∀ (st : TripTable) (s : BasicSummary),
      ((basicLoop env rs st s).2).statusCode = s.statusCode := by
  induction rs with
  | nil => intro st s; rfl
  | cons r rs ih =>
    intro st s
    simp only [basicLoop]
    rw [ih, basicStep_status]

/-- C4 (amended): in the enhanced handler every record of a batch lands in
exactly one disposition that increments `processed_count` or `error_count`
(so their sum equals the batch length) and the handler always returns the
200 summary; the basic stream-processor handler also always returns a 200
summary, but a decodable record whose `event_type` is neither `trip_start`
nor `trip_end` is skipped there without incrementing either counter. -/
theorem C4_batch_accounting :
    (∀ (env : Env) (records : List RecordInput) (st : TripTable),
      (lambda_handler env records st).summary.statusCode = 200
      ∧ (lambda_handler env records st).summary.processed_count
          + (lambda_handler env records st).summary.error_count
        = records.length)
    ∧ (∀ (env : Env) (records : List RecordInput) (st : TripTable),
        (basic_lambda_handler env records st).2.statusCode = 200) := by
  refine ⟨ fun env records st => ⟨ ?_, ?_ ⟩, fun env records st => ?_ ⟩
  · exact (lambdaLoop_counts env records st initSummary 0).2
  · have h := (lambdaLoop_counts env records st initSummary 0).1
    simpa [initSummary] using h
  · exact basicLoop_status env records st initBasicSummary

/-- A record that decodes to a well-formed dict whose `event_type` is an
unknown kind. -/
def unknownEventRecord : RecordInput :=
  { decode := .ok (.pdict [("event_type", .pstr "trip_update"),
      ("trip_id", .pstr "T9")]),
    storageFault := none, s3Ok := true, sqsOk := true,
    kmeta := ⟨ none ⟩ }

def demoEnv : Env :=
  { now := 63852220800, ttl := 63852307200,
    nowIso := "2024-05-25T08:00:00", dateStr := "2024-05-25",
    hourStr := "08", correlation_id := "c0", dlq_url := "" }

/-- C4 (counterexample): in the basic stream-processor handler, a batch of
one record with `event_type = "trip_update"` ends with `processed_count = 0`
and `error_count = 0` — the record is reflected in neither counter, so the
counters do not account for every record. -/
theorem C4_counterexample :
    ((basic_lambda_handler demoEnv [unknownEventRecord] emptyTable).2.processed_count
      = 0)
    ∧ ((basic_lambda_handler demoEnv [unknownEventRecord] emptyTable).2.error_count
      = 0)
    ∧ ((basic_lambda_handler demoEnv [unknownEventRecord] emptyTable).2.processed_count
        + (basic_lambda_handler demoEnv [unknownEventRecord] emptyTable).2.error_count
       ≠ ([unknownEventRecord] : List RecordInput).length) := by
  refine ⟨ rfl, rfl, by decide ⟩

/-- C10: with no configured dead-letter queue URL (the empty-string
environment default) `send_to_dlq` returns `False` and delivers nothing — so
over any batch the enhanced handler delivers zero dead-letter messages while
still counting the failing records in `error_count`; and a failure raised
inside dead-lettering or archiving itself is caught, the function returning
`False` instead of propagating into the batch loop. -/
theorem C10_failure_containment :
    (∀ (sendOk : Bool) (record : KRecord) (ed : ErrorDetails) (cid : String),
      send_to_dlq "" sendOk record ed cid = (false, none))
    ∧ (∀ (url : String) (record : KRecord) (ed : ErrorDetails)
        (cid : String),
        (send_to_dlq url false record ed cid).1 = false)
    ∧ (∀ (nowIso dateStr hourStr : String) (payload : PyVal)
        (record : KRecord) (ve vw : List VErr) (cid : String),
        (archive_invalid_data false nowIso dateStr hourStr payload record
          ve vw cid).1 = false)
    ∧ (∀ (now ttl : Int) (nowIso dateStr hourStr cid : String)
        (records : List RecordInput) (st : TripTable),
        (lambda_handler ⟨ now, ttl, nowIso, dateStr, hourStr, cid, "" ⟩
          records st).dlqSends = 0) := by
  refine ⟨ fun sendOk record ed cid => rfl,
           fun url record ed cid => ?_,
           fun nowIso dateStr hourStr payload record ve vw cid => rfl,
           fun now ttl nowIso dateStr hourStr cid records st => ?_ ⟩
  · unfold send_to_dlq
    split <;> rfl
  · exact lambdaLoop_dlq_empty ⟨ now, ttl, nowIso, dateStr, hourStr, cid, "" ⟩
      rfl records st initSummary 0
